import Mathlib

/-!
# Verification of kreuzberg's cache / lock / batch-orchestration core

A shallow embedding, in Lean 4, of the concurrency-and-caching substrate of the
kreuzberg document-extraction library (directory `src/v3/kreuzberg`):

* `kreuzberg/_utils/_document_cache.py` — the fingerprint-addressed document
  cache (`DocumentCache`) with staleness detection and single-flight gates;
* `kreuzberg/_utils/_pdf_lock.py` — the global / per-file reentrant lock layer;
* `kreuzberg/extraction.py` — the single and batch extraction entry points;
* `kreuzberg/_utils/_errors.py` — structured error-context construction.

Python dictionaries are embedded as association lists with an explicit
`lookup` / `insert` / `erase` interface; `threading.Event` objects are given
identities (natural numbers) with a separate id → set-flag table so that an
event can still be observed after it is popped from the processing table.
File-system interaction (`path.stat()`, `path.exists()`) is a parameter
`FS := String → Option Stat`; paths are taken to be already resolved.
Python functions that can raise are embedded as `Except`-valued functions, and
operations that can block forever on a `threading.Event` return `Option`
(`none` = the sequential execution blocks).  Code of the repository that is not
present under `src/` (the process-pool manager, the batch bubble-up
classifier, the `ExtractionConfig` / `ExtractionResult` dataclasses) is
modelled from the specification; such definitions carry a doc comment that
starts with `Modelled from the spec:`.
-/

set_option autoImplicit false

namespace Kreuzberg

/-! ## Association-list maps (embedding of Python `dict`) -/

/-- First-match lookup, the embedding of `d[k]` / `k in d`. -/
def alookup {κ α : Type} [DecidableEq κ] : List (κ × α) → κ → Option α
  | [], _ => none
  | (k, v) :: rest, k' => if k' = k then some v else alookup rest k'

/-- Overwrite-or-append insert, the embedding of `d[k] = v`. -/
def ainsert {κ α : Type} [DecidableEq κ] : List (κ × α) → κ → α → List (κ × α)
  | [], k, v => [(k, v)]
  | (k₀, v₀) :: rest, k, v =>
    if k = k₀ then (k, v) :: rest else (k₀, v₀) :: ainsert rest k v

/-- Removal of every binding of a key, the embedding of `d.pop(k, None)`.
(A Python dict holds at most one binding per key, so removing all matches
agrees with removing the unique one on every state reachable from a dict.) -/
def aerase {κ α : Type} [DecidableEq κ] : List (κ × α) → κ → List (κ × α)
  | [], _ => []
  | (k₀, v₀) :: rest, k =>
    if k = k₀ then aerase rest k else (k₀, v₀) :: aerase rest k

/-! ## File-system and stat model -/

/-- The slice of `os.stat_result` the cache consults: `st_size` and `st_mtime`.
`st_mtime` is a Python float compared only for equality, embedded as `Int`. -/
structure Stat where
  st_size : Nat
  st_mtime : Int
deriving DecidableEq, Repr

/-- A file system snapshot: `path.stat()` returns `some s`, or `none` when the
call raises `OSError` (missing/unreadable file).  `path.exists()` is
`(fs path).isSome`.  Paths are taken to be already resolved strings. -/
def FS : Type := String → Option Stat

/-! ## Extraction configuration and results

`kreuzberg._types` is not present under `src/`; the two records below are
modelled from their use sites in `extraction.py` and `_document_cache.py`
(only the fields those files read are included). -/

/-- Modelled from the spec: the `ExtractionConfig` dataclass
(`kreuzberg._types`, absent from `src/`), restricted to the fields read by
`extraction.py` and `_document_cache.py`: the seven cache-key fields
(`force_ocr`, `ocr_backend`, `extract_tables`, `chunk_content`, `max_chars`,
`max_overlap`, `auto_detect_document_type`), the post-processing switches, and
`use_cache`.  Validators, hooks and the OCR/token-reduction sub-configs are
external collaborators and are carried by `Env` instead. -/
structure ExtractionConfig where
  force_ocr : Bool
  ocr_backend : Option String
  extract_tables : Bool
  chunk_content : Bool
  max_chars : Nat
  max_overlap : Nat
  auto_detect_document_type : Bool
  extract_entities : Bool
  extract_keywords : Bool
  keyword_count : Nat
  auto_detect_language : Bool
  use_cache : Bool
deriving DecidableEq, Repr

/-- The part of an error context built by `create_error_context`
(`_utils/_errors.py`) that is observable in our model: the timestamp, the
operation name, the file block, the error block, and the extra keyword
arguments passed by `_attempt_basic_extraction`.  The `system` block (psutil
snapshot) is outside the model. -/
structure FileCtx where
  path : String
  name : String
  file_exists : Bool
  size : Option Nat
deriving DecidableEq, Repr

/-- The `error` block of an error context: exception class name and message. -/
structure ErrCtxError where
  type : String
  message : String
deriving DecidableEq, Repr

/-- The structured error context produced by `create_error_context`
(`_utils/_errors.py:49`).  `index`, `mime_type` and `content_size` are the
extra keyword arguments; `Option` around them distinguishes "not passed". -/
structure ErrorContext where
  timestamp : Int
  operation : String
  file : Option FileCtx
  error : Option ErrCtxError
  index : Option Nat
  mime_type : Option (Option String)
  content_size : Option Nat
deriving DecidableEq, Repr

/-- Modelled from the spec: the `ExtractionResult` dataclass
(`kreuzberg._types`, absent from `src/`), restricted to the fields written by
`extraction.py`.  The `metadata` dict is represented by its three keys that
`extraction.py` writes: `error`, `error_context` and `extraction_error`. -/
structure ExtractionResult where
  content : String
  mime_type : String
  chunks : List String
  entities : Option (List String)
  keywords : Option (List String)
  detected_languages : Option (List String)
  document_type : Option String
  metadata_error : Option String
  metadata_error_context : Option ErrorContext
  metadata_extraction_error : Option ErrCtxError
deriving DecidableEq, Repr

/-- A plain extraction result holding only content and mime type, as built by
the no-extractor fallback branches of `extraction.py`. -/
def plainResult (content mime_type : String) : ExtractionResult :=
  { content := content
    mime_type := mime_type
    chunks := []
    entities := none
    keywords := none
    detected_languages := none
    document_type := none
    metadata_error := none
    metadata_error_context := none
    metadata_extraction_error := none }

/-! ## Errors -/

/-- The exception classes distinguished by the embedded code paths:
`ValidationError` (kreuzberg.exceptions), a parsing/extraction failure
(`KreuzbergError` subclass raised by an extractor), and the fatal /
programming-error class that the batch layer lets bubble up. -/
inductive KError where
  | validationError (message : String) (context_file_path : String)
  | parsingError (message : String)
  | fatal (name message : String)
deriving DecidableEq, Repr

instance exceptDecidableEq {ε α : Type} [DecidableEq ε] [DecidableEq α] :
    DecidableEq (Except ε α) := fun x y =>
  match x, y with
  | .ok a, .ok b =>
    if h : a = b then isTrue (by rw [h]) else isFalse (by simp [h])
  | .error a, .error b =>
    if h : a = b then isTrue (by rw [h]) else isFalse (by simp [h])
  | .ok _, .error _ => isFalse (by simp)
  | .error _, .ok _ => isFalse (by simp)

/-- `type(error).__name__` for the embedded exception classes. -/
def KError.name : KError → String
  | .validationError _ _ => "ValidationError"
  | .parsingError _ => "ParsingError"
  | .fatal n _ => n

/-- `str(error)` for the embedded exception classes. -/
def KError.message : KError → String
  | .validationError m _ => m
  | .parsingError m => m
  | .fatal _ m => m

/-- `isinstance(error, (ValueError, TypeError, ValidationError))`, the guard
of the first branch of `_attempt_basic_extraction` (`extraction.py:399`).
Of the embedded classes only `ValidationError` is such an instance. -/
def KError.isValidationLike : KError → Bool
  | .validationError _ _ => true
  | _ => false

/-- Modelled from the spec: `should_exception_bubble_up` from
`kreuzberg._error_handling` (module absent from `src/`).  Per spec §4.4/§7,
in batch context per-item errors are captured as structured values except for
the closed Fatal/programming class, which aborts the whole batch. -/
def should_exception_bubble_up (e : KError) (_context : String) : Bool :=
  match e with
  | .fatal _ _ => true
  | _ => false

/-! ## Cache keys (`DocumentCache._get_cache_key`, `_document_cache.py:21`)

The Python code builds `file_info = {path, size, mtime}` (with a `(0, 0)`
fallback when `stat` raises `OSError`), merges in the seven-field config
allow-list when a config is given, renders `str(sorted(cache_data.items()))`
and returns the first 16 hex characters of its SHA-256.  The field names are
distinct and each value's `repr` is injective for its fixed type, so the
rendered string is injective in the data; we embed the key as the hashed
payload itself, i.e. the truncated hash is modelled as injective on the
canonical strings actually produced. -/

/-- The `file_info` part of the cache key. -/
structure FileInfo where
  path : String
  size : Nat
  mtime : Int
deriving DecidableEq, Repr

/-- The seven-field config allow-list of `_get_cache_key`
(`_document_cache.py:36`). -/
structure ConfigKeyFields where
  force_ocr : Bool
  ocr_backend : Option String
  extract_tables : Bool
  chunk_content : Bool
  max_chars : Nat
  max_overlap : Nat
  auto_detect_document_type : Bool
deriving DecidableEq, Repr

/-- Projection of an `ExtractionConfig` onto the allow-list. -/
def configKeyFields (c : ExtractionConfig) : ConfigKeyFields :=
  { force_ocr := c.force_ocr
    ocr_backend := c.ocr_backend
    extract_tables := c.extract_tables
    chunk_content := c.chunk_content
    max_chars := c.max_chars
    max_overlap := c.max_overlap
    auto_detect_document_type := c.auto_detect_document_type }

/-- A cache key: the payload whose canonical string the code hashes. -/
structure CacheKey where
  info : FileInfo
  config : Option ConfigKeyFields
deriving DecidableEq, Repr

/-- The `file_info` dict of `_get_cache_key`, including the
`except OSError: size = 0, mtime = 0` fallback (`_document_cache.py:31`). -/
def fileInfoOf (path : String) (stat : Option Stat) : FileInfo :=
  match stat with
  | some s => { path := path, size := s.st_size, mtime := s.st_mtime }
  | none => { path := path, size := 0, mtime := 0 }

/-- `DocumentCache._get_cache_key(file_path, config)` against file system
`fs`. -/
def getCacheKey (fs : FS) (path : String) (config : Option ExtractionConfig) :
    CacheKey :=
  { info := fileInfoOf path (fs path), config := config.map configKeyFields }

/-! ## The document cache (`_document_cache.py`) -/

/-- The `size` / `mtime` / `cached_at` fingerprint stored by
`DocumentCache.set` (`_document_cache.py:85`). -/
structure FileMeta where
  size : Nat
  mtime : Int
  cached_at : Int
deriving DecidableEq, Repr

/-- The state of a `DocumentCache` instance: the three dictionaries of
`__init__` (`_document_cache.py:14`), plus an identity table for the
`threading.Event` objects held in `_processing` (so a gate's set-flag remains
observable after the gate is popped) and an allocation counter. -/
structure DocumentCache where
  cache : List (CacheKey × ExtractionResult)
  fileMetadata : List (CacheKey × FileMeta)
  processing : List (CacheKey × Nat)
  events : List (Nat × Bool)
  nextEvent : Nat
deriving DecidableEq, Repr

/-- A freshly constructed `DocumentCache()`. -/
def DocumentCache.empty : DocumentCache :=
  { cache := [], fileMetadata := [], processing := [], events := [], nextEvent := 0 }

/-- Whether event `eid` has been `set()`. -/
def DocumentCache.eventIsSet (c : DocumentCache) (eid : Nat) : Bool :=
  alookup c.events eid = some true

/-- `DocumentCache._is_cache_valid(cache_key, file_path)`
(`_document_cache.py:51`): the key must have fingerprint metadata and the
current stat must match it; a failing `stat` (`OSError`) is a miss. -/
def DocumentCache.isCacheValid (c : DocumentCache) (fs : FS) (key : CacheKey)
    (path : String) : Bool :=
  match alookup c.fileMetadata key with
  | none => false
  | some meta =>
    match fs path with
    | none => false
    | some st => meta.size = st.st_size ∧ meta.mtime = st.st_mtime

/-- `DocumentCache.get(file_path, config)` (`_document_cache.py:66`): on a
present-but-stale entry both the entry and its fingerprint are popped. -/
def DocumentCache.get (c : DocumentCache) (fs : FS) (path : String)
    (config : Option ExtractionConfig) : Option ExtractionResult × DocumentCache :=
  let key := getCacheKey fs path config
  match alookup c.cache key with
  | none => (none, c)
  | some result =>
    if c.isCacheValid fs key path then (some result, c)
    else
      (none, { c with cache := aerase c.cache key
                      fileMetadata := aerase c.fileMetadata key })

/-- `DocumentCache.set(file_path, config, result)` (`_document_cache.py:79`):
unconditional overwrite, storing the current stat (with `(0, 0)` fallback) and
`cached_at := now` as the fingerprint. -/
def DocumentCache.set (c : DocumentCache) (fs : FS) (now : Int) (path : String)
    (config : Option ExtractionConfig) (result : ExtractionResult) : DocumentCache :=
  let key := getCacheKey fs path config
  let meta : FileMeta :=
    match fs path with
    | some st => { size := st.st_size, mtime := st.st_mtime, cached_at := now }
    | none => { size := 0, mtime := 0, cached_at := now }
  { c with cache := ainsert c.cache key result
           fileMetadata := ainsert c.fileMetadata key meta }

/-- `DocumentCache.is_processing(file_path, config)` (`_document_cache.py:101`). -/
def DocumentCache.isProcessing (c : DocumentCache) (fs : FS) (path : String)
    (config : Option ExtractionConfig) : Bool :=
  (alookup c.processing (getCacheKey fs path config)).isSome

/-- `DocumentCache.mark_processing(file_path, config)`
(`_document_cache.py:106`): idempotent — an existing gate is returned as-is,
otherwise a fresh unset `threading.Event` is created and registered. -/
def DocumentCache.markProcessing (c : DocumentCache) (fs : FS) (path : String)
    (config : Option ExtractionConfig) : Nat × DocumentCache :=
  let key := getCacheKey fs path config
  match alookup c.processing key with
  | some eid => (eid, c)
  | none =>
    (c.nextEvent,
      { c with processing := ainsert c.processing key c.nextEvent
               events := ainsert c.events c.nextEvent false
               nextEvent := c.nextEvent + 1 })

/-- `DocumentCache.mark_complete(file_path, config)` (`_document_cache.py:114`):
if a gate exists for the key it is popped from the processing table and its
event is `set()`. -/
def DocumentCache.markComplete (c : DocumentCache) (fs : FS) (path : String)
    (config : Option ExtractionConfig) : DocumentCache :=
  let key := getCacheKey fs path config
  match alookup c.processing key with
  | none => c
  | some eid =>
    { c with processing := aerase c.processing key
             events := ainsert c.events eid true }

/-- `DocumentCache.clear()` (`_document_cache.py:122`): clears `_cache` and
`_file_metadata`; the `_processing` gate table is not touched. -/
def DocumentCache.clear (c : DocumentCache) : DocumentCache :=
  { c with cache := [], fileMetadata := [] }

/-! ## The extraction pipeline (`extraction.py`)

The format-specific extractors, the chunker, the entity/keyword/language
collaborators and the mime-type validator are external to the verified core
(spec §1, §6); they enter the embedding as the function-valued fields of
`Env` / `FeatureImpls` below, and every theorem quantifies over them. -/

/-- The external collaborators invoked by `_validate_and_post_process_helper`
(`extraction.py:52`); each models the corresponding `safe_feature_execution`
body run to completion. -/
structure FeatureImpls where
  chunk : String → Nat → Nat → List String
  entities : String → Option (List String)
  keywords : String → Nat → Option (List String)
  detect_languages : String → List String
  document_type : ExtractionResult → Option String

/-- The environment of one extraction run: the file system, the CPU count
(`mp.cpu_count()`), the clock, and the external extraction collaborators.
`extract p` is the body `validate_mime_type + ExtractorRegistry dispatch +
raw extraction` for an existing path `p` (`extraction.py:566-575` sync,
`268-277` async); `extractBytes` the analogue for byte input
(`extraction.py:224-233`); `basicExtract` the registry dispatch inside
`_attempt_basic_extraction` (`extraction.py:449-451`), where `.error` is an
exception caught by the surrounding `except` clause and `.ok none` means no
extractor was registered. -/
structure Env where
  fs : FS
  cpu : Nat
  now : Int
  extract : String → Except KError ExtractionResult
  extractBytes : String → String → Except KError ExtractionResult
  basicExtract : String → String → Except KError (Option ExtractionResult)
  features : FeatureImpls

/-- `_validate_and_post_process_helper(result, config, file_path)`
(`extraction.py:52-157`): each enabled feature rewrites its field of the
result.  The `token_reduction` branch is outside the model (the modelled
`ExtractionConfig` carries no token-reduction sub-config, i.e. it is `None` /
`off`); validators and post-processing hooks are external and not modelled
(`validators = None`, `post_processing_hooks = None`), which also makes the
sync and async wrappers `_validate_and_post_process_{sync,async}` coincide. -/
def validatePostProcess (F : FeatureImpls) (config : ExtractionConfig)
    (result : ExtractionResult) : ExtractionResult :=
  let r := result
  let r := if config.chunk_content then
    { r with chunks := F.chunk r.content config.max_chars config.max_overlap } else r
  let r := if config.extract_entities then
    { r with entities := F.entities r.content } else r
  let r := if config.extract_keywords then
    { r with keywords := F.keywords r.content config.keyword_count } else r
  let r := if config.auto_detect_language then
    { r with detected_languages := some (F.detect_languages r.content) } else r
  let r := if config.auto_detect_document_type then
    { r with document_type := F.document_type r } else r
  r

/-- Python truthiness of an optional string (`if file_path:`): `None` and the
empty string are falsy. -/
def pyTruthy : Option String → Bool
  | none => false
  | some s => s ≠ ""

/-- The characters of the final path component: the accumulator is reset at
every separator. -/
def baseNameAux : List Char → List Char → List Char
  | [], acc => acc.reverse
  | c :: cs, acc => if c = '/' then baseNameAux cs [] else baseNameAux cs (c :: acc)

/-- `Path(p).name`: the final path component. -/
def baseName (p : String) : String :=
  ⟨baseNameAux p.data []⟩

/-- `create_error_context(...)` (`_utils/_errors.py:49`), up to the psutil
`system` block (whose keyword trigger is outside the model): the timestamp and
operation, the `file` block when `file_path` is truthy, the `error` block when
an error is given, and the extra keyword arguments. -/
def create_error_context (fs : FS) (now : Int) (operation : String)
    (file_path : Option String) (error : Option KError) (index : Option Nat)
    (mime_type : Option (Option String)) (content_size : Option Nat) :
    ErrorContext :=
  { timestamp := now
    operation := operation
    file :=
      match file_path with
      | some p =>
        if p = "" then none
        else some { path := p, name := baseName p,
                    file_exists := (fs p).isSome,
                    size := (fs p).map Stat.st_size }
      | none => none
    error := error.map fun e => { type := e.name, message := e.message }
    index := index
    mime_type := mime_type
    content_size := content_size }

/-- `len(content) if content else 0` for optional byte content. -/
def contentSize : Option String → Nat
  | none => 0
  | some s => s.length

/-- The structured error result that `_attempt_basic_extraction` builds
(`extraction.py:403-424`, `428-447` and `476-497`): `content` is
`"Error: <Type>: <message>"`, `metadata["error"]` is `"<Type>: <message>"`,
and `metadata["error_context"]` the given context; the list-valued fields are
all set to empty lists. -/
def structuredErrorResult (e : KError) (ctx : ErrorContext) : ExtractionResult :=
  { content := "Error: " ++ e.name ++ ": " ++ e.message
    mime_type := "text/plain"
    chunks := []
    entities := some []
    keywords := some []
    detected_languages := some []
    document_type := none
    metadata_error := some (e.name ++ ": " ++ e.message)
    metadata_error_context := some ctx
    metadata_extraction_error := none }

/-- `_attempt_basic_extraction(content, mime_type, original_error, index,
file_path)` (`extraction.py:380-497`).  Branches, in source order: a
validation-like error (`ValueError` / `TypeError` / `ValidationError`; the
`"mock"` disjunct can never hold for the embedded exception classes) yields a
structured error result; with no byte content (file-based batches) a
structured error result with hard-coded operation `"batch_extract_file"` and
only `index` / `file_path` extras; otherwise a registry-based basic
extraction is attempted (`validate_mime_type` raising on a `None` mime type
is caught by the `except` clause), annotating a successful basic result with
`metadata["extraction_error"]`, and every failure falls through to the final
structured error result. -/
def attempt_basic_extraction (env : Env) (content : Option String)
    (mime_type : Option String) (original_error : KError) (index : Nat)
    (file_path : Option String) : ExtractionResult :=
  let op := if pyTruthy file_path then "batch_extract_file" else "batch_extract_bytes"
  let finalErr : ExtractionResult :=
    structuredErrorResult original_error
      (create_error_context env.fs env.now op file_path (some original_error)
        (some index) (some mime_type) (some (contentSize content)))
  if original_error.isValidationLike then finalErr
  else
    match content with
    | none =>
      structuredErrorResult original_error
        (create_error_context env.fs env.now "batch_extract_file" file_path
          (some original_error) (some index) none none)
    | some s =>
      match mime_type with
      | none => finalErr
      | some m =>
        match env.basicExtract s m with
        | .error _ => finalErr
        | .ok none => finalErr
        | .ok (some basic) =>
          let extractionErr : ErrCtxError :=
            ⟨original_error.name, original_error.message⟩
          { basic with metadata_extraction_error := some extractionErr }

/-- The body of the `try` block shared by `extract_file` and
`extract_file_sync` up to the cache write (`extraction.py:265-279`,
`563-577`): the existence check raising
`ValidationError("The file does not exist")`, external extraction, and
post-processing. -/
def extractFileBody (env : Env) (config : ExtractionConfig) (path : String) :
    Except KError ExtractionResult :=
  if (env.fs path).isSome then
    match env.extract path with
    | .error e => .error e
    | .ok r => .ok (validatePostProcess env.features config r)
  else .error (.validationError "The file does not exist" path)

/-- The `try ... finally` block of `extract_file` / `extract_file_sync`
(`extraction.py:264-287`, `562-585`): on success the cache is populated when
`use_cache` is on, and in all cases — success or raise — the `finally` clause
runs `mark_complete` when `use_cache` is on.  The third component logs the
cache method calls made, in order. -/
def tryFinallyBlock (env : Env) (config : ExtractionConfig) (path : String)
    (c : DocumentCache) :
    Except KError ExtractionResult × DocumentCache × List String :=
  match extractFileBody env config path with
  | .ok r =>
    if config.use_cache then
      let c₁ := c.set env.fs env.now path (some config) r
      (.ok r, c₁.markComplete env.fs path (some config), ["set", "mark_complete"])
    else (.ok r, c, [])
  | .error e =>
    if config.use_cache then
      (.error e, c.markComplete env.fs path (some config), ["mark_complete"])
    else (.error e, c, [])

/-- `extract_file_sync(file_path, mime_type, config)` (`extraction.py:526`).
Returns `none` when the sequential execution blocks forever on
`event.wait()` for an event that is not set.  The log records the cache
method calls made, in order. -/
def extract_file_sync (env : Env) (config : ExtractionConfig) (path : String)
    (c : DocumentCache) :
    Option (Except KError ExtractionResult × DocumentCache × List String) :=
  if config.use_cache then
    match c.get env.fs path (some config) with
    | (some r, c₁) => some (.ok r, c₁, ["get"])
    | (none, c₁) =>
      if c₁.isProcessing env.fs path (some config) then
        let p := c₁.markProcessing env.fs path (some config)
        if p.2.eventIsSet p.1 then
          match p.2.get env.fs path (some config) with
          | (some r, c₃) =>
            some (.ok r, c₃, ["get", "is_processing", "mark_processing", "get"])
          | (none, c₃) =>
            let c₄ := (c₃.markProcessing env.fs path (some config)).2
            let out := tryFinallyBlock env config path c₄
            some (out.1, out.2.1,
              ["get", "is_processing", "mark_processing", "get", "mark_processing"]
                ++ out.2.2)
        else none
      else
        let c₂ := (c₁.markProcessing env.fs path (some config)).2
        let out := tryFinallyBlock env config path c₂
        some (out.1, out.2.1, ["get", "is_processing", "mark_processing"] ++ out.2.2)
  else
    let out := tryFinallyBlock env config path c
    some (out.1, out.2.1, out.2.2)

/-- `_handle_cache_async(path, config)` (`extraction.py:36-49`): cache
lookup, then — when another caller is in flight — waiting on its gate and
re-checking the cache; `none` when the wait blocks forever. -/
def handleCacheAsync (fs : FS) (c : DocumentCache) (path : String)
    (config : ExtractionConfig) :
    Option (Option ExtractionResult × DocumentCache × List String) :=
  match c.get fs path (some config) with
  | (some r, c₁) => some (some r, c₁, ["get"])
  | (none, c₁) =>
    if c₁.isProcessing fs path (some config) then
      let p := c₁.markProcessing fs path (some config)
      if p.2.eventIsSet p.1 then
        let g := p.2.get fs path (some config)
        some (g.1, g.2, ["get", "is_processing", "mark_processing", "get"])
      else none
    else some (none, c₁, ["get", "is_processing"])

/-- `extract_file(file_path, mime_type, config)` (`extraction.py:238`): the
async entry point — cache consultation via `_handle_cache_async`, then
`mark_processing` and the `try ... finally` block. -/
def extract_file (env : Env) (config : ExtractionConfig) (path : String)
    (c : DocumentCache) :
    Option (Except KError ExtractionResult × DocumentCache × List String) :=
  if config.use_cache then
    match handleCacheAsync env.fs c path config with
    | none => none
    | some (some r, c₁, log) => some (.ok r, c₁, log)
    | some (none, c₁, log) =>
      let c₂ := (c₁.markProcessing env.fs path (some config)).2
      let out := tryFinallyBlock env config path c₂
      some (out.1, out.2.1, log ++ ["mark_processing"] ++ out.2.2)
  else
    let out := tryFinallyBlock env config path c
    some (out.1, out.2.1, out.2.2)

/-- `extract_bytes` / `extract_bytes_sync` (`extraction.py:211-235`,
`500-523`): mime validation and extractor dispatch (`env.extractBytes`)
followed by post-processing; no cache interaction.  The sync and async
variants coincide in the model (validators and hooks are external). -/
def extract_bytes (env : Env) (config : ExtractionConfig)
    (content mime_type : String) : Except KError ExtractionResult :=
  match env.extractBytes content mime_type with
  | .error e => .error e
  | .ok r => .ok (validatePostProcess env.features config r)

/-! ## Batch orchestration (`extraction.py:290-337, 340-377, 588-678`)

The per-item units of work run concurrently over a shared cache; the model
runs every unit from the batch's initial cache state (the claims below do not
depend on inter-item cache effects) and abstracts scheduling as the
`order : List Nat` in which units complete.  A slot array pre-sized to the
input length is filled at the completing unit's index, as in the
`as_completed` loop of the sync versions and the `results[index] = ...`
writes of the async task-group versions. -/

/-- The slot-filling loop: units complete in the order given; a completing
unit that raised a bubbled-up error aborts the batch (`future.result()`
re-raises / the task group propagates), a blocked unit (`none`) blocks the
batch. -/
def runCompletion (outcomes : Nat → Option (Except KError ExtractionResult)) :
    List Nat → List (Option ExtractionResult) →
    Option (Except KError (List (Option ExtractionResult)))
  | [], slots => some (.ok slots)
  | i :: rest, slots =>
    match outcomes i with
    | none => none
    | some (.error e) => some (.error e)
    | some (.ok r) => runCompletion outcomes rest (slots.set i (some r))

/-- The per-item unit of `batch_extract_file` (`_extract_file`,
`extraction.py:311-331`): run `extract_file`; a raised exception either
bubbles up (aborting the batch) or is converted by
`_attempt_basic_extraction` into a structured per-item result. -/
def batchFileItem (env : Env) (config : ExtractionConfig) (c : DocumentCache)
    (paths : List String) (i : Nat) : Option (Except KError ExtractionResult) :=
  match extract_file env config (paths.getD i "") c with
  | none => none
  | some (.ok r, _, _) => some (.ok r)
  | some (.error e, _, _) =>
    if should_exception_bubble_up e "batch_processing" then some (.error e)
    else some (.ok (attempt_basic_extraction env none none e i
      (some (paths.getD i ""))))

/-- `batch_extract_file(file_paths, config)` (`extraction.py:290`): empty
input short-circuits; otherwise the task group fans out one unit per input
under the semaphore. -/
def batch_extract_file (env : Env) (config : ExtractionConfig)
    (c : DocumentCache) (paths : List String) (order : List Nat) :
    Option (Except KError (List (Option ExtractionResult))) :=
  if paths.length = 0 then some (.ok [])
  else runCompletion (batchFileItem env config c paths) order
    (List.replicate paths.length none)

/-- The per-item unit of `batch_extract_bytes` (`_extract_bytes`,
`extraction.py:361-371`). -/
def batchBytesItem (env : Env) (config : ExtractionConfig)
    (contents : List (String × String)) (i : Nat) :
    Option (Except KError ExtractionResult) :=
  let item := contents.getD i ("", "")
  match extract_bytes env config item.1 item.2 with
  | .ok r => some (.ok r)
  | .error e =>
    if should_exception_bubble_up e "batch_processing" then some (.error e)
    else some (.ok (attempt_basic_extraction env (some item.1) (some item.2) e i none))

/-- `batch_extract_bytes(contents, config)` (`extraction.py:340`). -/
def batch_extract_bytes (env : Env) (config : ExtractionConfig)
    (contents : List (String × String)) (order : List Nat) :
    Option (Except KError (List (Option ExtractionResult))) :=
  if contents.length = 0 then some (.ok [])
  else runCompletion (batchBytesItem env config contents) order
    (List.replicate contents.length none)

/-- The per-item unit of `batch_extract_file_sync` (`extract_single`,
`extraction.py:606-624`). -/
def batchFileSyncItem (env : Env) (config : ExtractionConfig)
    (c : DocumentCache) (paths : List String) (i : Nat) :
    Option (Except KError ExtractionResult) :=
  match extract_file_sync env config (paths.getD i "") c with
  | none => none
  | some (.ok r, _, _) => some (.ok r)
  | some (.error e, _, _) =>
    if should_exception_bubble_up e "batch_processing" then some (.error e)
    else some (.ok (attempt_basic_extraction env none none e i
      (some (paths.getD i ""))))

/-- `batch_extract_file_sync(file_paths, config)` (`extraction.py:588`): for
at most one input, a plain sequential call to `extract_file_sync` (whose
exceptions propagate unwrapped); otherwise the thread-pool fan-out with the
`as_completed` slot loop. -/
def batch_extract_file_sync (env : Env) (config : ExtractionConfig)
    (c : DocumentCache) (paths : List String) (order : List Nat) :
    Option (Except KError (List (Option ExtractionResult))) :=
  if paths.length ≤ 1 then
    match paths with
    | [] => some (.ok [])
    | p :: _ =>
      match extract_file_sync env config p c with
      | none => none
      | some (.ok r, _, _) => some (.ok [some r])
      | some (.error e, _, _) => some (.error e)
  else runCompletion (batchFileSyncItem env config c paths) order
    (List.replicate paths.length none)

/-- The per-item unit of `batch_extract_bytes_sync` (`extract_single`,
`extraction.py:657-666`). -/
def batchBytesSyncItem (env : Env) (config : ExtractionConfig)
    (contents : List (String × String)) (i : Nat) :
    Option (Except KError ExtractionResult) :=
  let item := contents.getD i ("", "")
  match extract_bytes env config item.1 item.2 with
  | .ok r => some (.ok r)
  | .error e =>
    if should_exception_bubble_up e "batch_processing" then some (.error e)
    else some (.ok (attempt_basic_extraction env (some item.1) (some item.2) e i none))

/-- `batch_extract_bytes_sync(contents, config)` (`extraction.py:637`). -/
def batch_extract_bytes_sync (env : Env) (config : ExtractionConfig)
    (contents : List (String × String)) (order : List Nat) :
    Option (Except KError (List (Option ExtractionResult))) :=
  if contents.length ≤ 1 then
    match contents with
    | [] => some (.ok [])
    | (content, mime) :: _ =>
      match extract_bytes env config content mime with
      | .ok r => some (.ok [some r])
      | .error e => some (.error e)
  else runCompletion (batchBytesSyncItem env config contents) order
    (List.replicate contents.length none)

/-! ## Concurrency sizing of the batch entry points -/

/-- The semaphore created by `batch_extract_file` (`extraction.py:303-307`):
`none` for empty input (early return before any semaphore exists), otherwise
`anyio.Semaphore(min(len(file_paths), mp.cpu_count() * 2))`. -/
def batch_extract_file_semaphore (cpu n : Nat) : Option Nat :=
  if n = 0 then none else some (min n (cpu * 2))

/-- The semaphore created by `batch_extract_bytes` (`extraction.py:353-357`). -/
def batch_extract_bytes_semaphore (cpu n : Nat) : Option Nat :=
  if n = 0 then none else some (min n (cpu * 2))

/-- The thread pool created by `batch_extract_file_sync`
(`extraction.py:601-604`): `none` for `len(file_paths) <= 1` (sequential
path, no executor), otherwise
`ThreadPoolExecutor(max_workers=min(len(file_paths), mp.cpu_count()))`. -/
def batch_extract_file_sync_workers (cpu n : Nat) : Option Nat :=
  if n ≤ 1 then none else some (min n cpu)

/-- The thread pool created by `batch_extract_bytes_sync`
(`extraction.py:650-655`). -/
def batch_extract_bytes_sync_workers (cpu n : Nat) : Option Nat :=
  if n ≤ 1 then none else some (min n cpu)

/-! ## The reentrant lock layer (`_utils/_pdf_lock.py`) -/

/-- A `threading.RLock`: the holding thread (if any) and its recursion
depth. -/
structure RLock where
  owner : Option Nat
  count : Nat
deriving DecidableEq, Repr

/-- A freshly constructed `threading.RLock()`. -/
def RLock.new : RLock := { owner := none, count := 0 }

/-- `lock.acquire()` by thread `t`: free locks are taken, a lock already held
by `t` is re-entered; `none` when the call would block (held by another
thread). -/
def RLock.acquire (l : RLock) (t : Nat) : Option RLock :=
  match l.owner with
  | none => some { owner := some t, count := 1 }
  | some o =>
    if o = t then some { owner := some t, count := l.count + 1 }
    else none

/-- `lock.release()`: the final release frees the lock, an inner release
decrements the depth. -/
def RLock.release (l : RLock) : RLock :=
  if l.count ≤ 1 then { owner := none, count := 0 }
  else { owner := l.owner, count := l.count - 1 }

/-- `pypdfium_lock()` (`_pdf_lock.py:38-41`): the `with _PYPDFIUM_LOCK:`
context manager run by thread `t` around a `body` that returns or raises —
acquire, run the body, release on the way out of the `with` block whatever
the body did, and propagate the body's outcome unchanged. -/
def pypdfium_lock {ε α : Type} (l : RLock) (t : Nat) (body : Except ε α) :
    Option (Except ε α × RLock) :=
  (l.acquire t).map fun held => (body, held.release)

/-- The per-file lock table `_FILE_LOCKS_CACHE` (`_pdf_lock.py:17`), keyed by
`md5(str(Path(p).resolve()))`; the hash of the resolved path is embedded as
the path string itself (the hashing is injective on the canonical strings
produced).  Weak-reference reclamation drops entries with no outside
referents; the model keeps them (reclamation only shrinks the table and is
not involved in the claims below). -/
def FileLocks : Type := List (String × RLock)

/-- `_get_file_lock(file_path)` (`_pdf_lock.py:26-35`): return the cached
lock for the file's key, creating and caching a fresh `RLock` otherwise. -/
def getFileLock (locks : FileLocks) (path : String) : RLock × FileLocks :=
  match alookup locks path with
  | some l => (l, locks)
  | none => (RLock.new, ainsert locks path RLock.new)

/-- `pypdfium_file_lock(file_path)` (`_pdf_lock.py:44-48`): look up (or
create) the file's lock, then the `with lock:` context manager as in
`pypdfium_lock`; the table is returned with the lock's post-release state
written back. -/
def pypdfium_file_lock {ε α : Type} (locks : FileLocks) (path : String)
    (t : Nat) (body : Except ε α) : Option (Except ε α × FileLocks) :=
  let g := getFileLock locks path
  (g.1.acquire t).map fun held => (body, ainsert g.2 path held.release)

/-! ## The adaptive process-pool manager -/

/-- Modelled from the spec: `ProcessPoolManager`
(`kreuzberg._utils._process_pool`, absent from `src/`; its test suite is
`src/v3/tests/multiprocessing/process_manager_test.py`).  Per spec §4.3 and
the constructor tests, the manager is configured by `max_processes` and
`memory_limit_bytes` (= `int(memory_limit_gb * 1024³)` when constructed from
gigabytes). -/
structure ProcessPoolManager where
  max_processes : Nat
  memory_limit_bytes : Nat
deriving DecidableEq, Repr

/-- Modelled from the spec: `ProcessPoolManager.get_optimal_workers
(task_memory_mb)` (spec §4.3): `cpu_bound = max_processes`;
`mem_bound = floor(memory_limit_bytes / (task_memory_mb * 1MB))`, clamped to
at least 1; result `max(1, min(cpu_bound, mem_bound))`. -/
def ProcessPoolManager.get_optimal_workers (m : ProcessPoolManager)
    (task_memory_mb : Nat) : Nat :=
  let memory_per_task := task_memory_mb * 1024 * 1024
  let memory_based := max 1 (m.memory_limit_bytes / memory_per_task)
  max 1 (min m.max_processes memory_based)

/-! ## Concrete instances used by counterexamples and witnesses -/

/-- A configuration with every optional feature off and caching on. -/
def baseConfig : ExtractionConfig :=
  { force_ocr := false
    ocr_backend := some "tesseract"
    extract_tables := false
    chunk_content := false
    max_chars := 1000
    max_overlap := 100
    auto_detect_document_type := false
    extract_entities := false
    extract_keywords := false
    keyword_count := 10
    auto_detect_language := false
    use_cache := true }

/-- `baseConfig` with caching off. -/
def noCacheConfig : ExtractionConfig := { baseConfig with use_cache := false }

/-- `noCacheConfig` with entity extraction on: it differs from
`noCacheConfig` only in a config field outside the cache-key allow-list. -/
def entitiesConfig : ExtractionConfig :=
  { noCacheConfig with extract_entities := true }

/-- A small file system: two readable text files and a readable document. -/
def sampleFS : FS := fun p =>
  if p = "ok1.txt" then some ⟨5, 100⟩
  else if p = "ok2.txt" then some ⟨7, 200⟩
  else if p = "doc.txt" then some ⟨5, 100⟩
  else none

/-- `sampleFS` after `doc.txt` is mutated: its size changed from 5 to 6. -/
def mutatedFS : FS := fun p =>
  if p = "doc.txt" then some ⟨6, 100⟩ else none

/-- Deterministic external feature collaborators. -/
def sampleFeatures : FeatureImpls :=
  { chunk := fun s _ _ => [s]
    entities := fun _ => some ["Entity"]
    keywords := fun _ _ => some ["kw"]
    detect_languages := fun _ => ["en"]
    document_type := fun _ => some "report" }

/-- A deterministic extraction environment over `sampleFS`. -/
def sampleEnv : Env :=
  { fs := sampleFS
    cpu := 4
    now := 1700000000
    extract := fun p => .ok (plainResult ("content of " ++ p) "text/plain")
    extractBytes := fun content mime => .ok (plainResult content mime)
    basicExtract := fun _ _ => .ok none
    features := sampleFeatures }

/-- The cache state after one successful cached extraction of `doc.txt`. -/
def docCachedState : DocumentCache :=
  DocumentCache.empty.set sampleFS sampleEnv.now "doc.txt" (some baseConfig)
    (plainResult "content of doc.txt" "text/plain")

/-- The cache state after a gate is registered for `doc.txt` and the cache is
then cleared. -/
def clearedWithGate : DocumentCache :=
  ((DocumentCache.empty.markProcessing sampleFS "doc.txt" (some baseConfig)).2).clear

/-- The `ValidationError` raised for the missing batch input. -/
def c5Error : KError := .validationError "The file does not exist" "missing.pdf"

/-- The structured per-item error slot `batch_extract_file` produces for
`missing.pdf` at index 1. -/
def c5ErrorSlot : ExtractionResult :=
  structuredErrorResult c5Error
    { timestamp := sampleEnv.now
      operation := "batch_extract_file"
      file := some { path := "missing.pdf", name := "missing.pdf",
                     file_exists := false, size := none }
      error := some ⟨"ValidationError", "The file does not exist"⟩
      index := some 1
      mime_type := some none
      content_size := some 0 }

/-- The expected slot contents for the three-input batch of claim C5. -/
def c5Expected : Nat → ExtractionResult := fun i =>
  [plainResult "content of ok1.txt" "text/plain",
   c5ErrorSlot,
   plainResult "content of ok2.txt" "text/plain"].getD i (plainResult "" "")

/-! ## Map lemmas -/

theorem alookup_ainsert_self {κ α : Type} [DecidableEq κ]
    (l : List (κ × α)) (k : κ) (v : α) : alookup (ainsert l k v) k = some v := by
  induction l with
  | nil => simp [ainsert, alookup]
  | cons hd tl ih =>
    by_cases h : k = hd.1
    · simp [ainsert, alookup, h]
    · simp [ainsert, alookup, h, ih]

theorem alookup_ainsert_ne {κ α : Type} [DecidableEq κ]
    (l : List (κ × α)) (k k' : κ) (v : α) (h : k' ≠ k) :
    alookup (ainsert l k v) k' = alookup l k' := by
  induction l with
  | nil => simp [ainsert, alookup, h]
  | cons hd tl ih =>
    by_cases hk : k = hd.1
    · subst hk; simp [ainsert, alookup, h]
    · by_cases hk' : k' = hd.1
      · simp [ainsert, alookup, hk, hk']
      · simp [ainsert, alookup, hk, hk', ih]

theorem alookup_aerase_self {κ α : Type} [DecidableEq κ]
    (l : List (κ × α)) (k : κ) : alookup (aerase l k) k = none := by
  induction l with
  | nil => simp [aerase, alookup]
  | cons hd tl ih =>
    by_cases h : k = hd.1
    · subst h; simp [aerase, ih]
    · simp [aerase, alookup, h, ih]

theorem ainsert_ainsert_self {κ α : Type} [DecidableEq κ]
    (l : List (κ × α)) (k : κ) (v v' : α) :
    ainsert (ainsert l k v) k v' = ainsert l k v' := by
  induction l with
  | nil => simp [ainsert]
  | cons hd tl ih =>
    by_cases h : k = hd.1
    · simp [ainsert, h]
    · simp [ainsert, h, ih]

theorem ainsert_self_of_alookup {κ α : Type} [DecidableEq κ]
    (l : List (κ × α)) (k : κ) (v : α) (h : alookup l k = some v) :
    ainsert l k v = l := by
  induction l with
  | nil => simp [alookup] at h
  | cons hd tl ih =>
    obtain ⟨k₀, v₀⟩ := hd
    by_cases hk : k = k₀
    · subst hk
      simp [alookup] at h
      simp [ainsert, h]
    · simp [alookup, hk] at h
      simp [ainsert, hk, ih h]

/-! ## Cache-protocol lemmas -/

/-- After `mark_processing`, the key's gate is the returned event. -/
theorem markProcessing_lookup (c : DocumentCache) (fs : FS) (path : String)
    (config : Option ExtractionConfig) :
    alookup ((c.markProcessing fs path config).2).processing
        (getCacheKey fs path config) =
      some (c.markProcessing fs path config).1 := by
  unfold DocumentCache.markProcessing
  cases h : alookup c.processing (getCacheKey fs path config) with
  | none => simp [h, alookup_ainsert_self]
  | some eid => simp [h]

/-- `mark_complete` on a key whose gate is `eid` removes the gate and sets
its event. -/
theorem markComplete_releases (c : DocumentCache) (fs : FS) (path : String)
    (config : Option ExtractionConfig) (eid : Nat)
    (h : alookup c.processing (getCacheKey fs path config) = some eid) :
    alookup ((c.markComplete fs path config)).processing
        (getCacheKey fs path config) = none ∧
    (c.markComplete fs path config).eventIsSet eid = true := by
  unfold DocumentCache.markComplete DocumentCache.eventIsSet
  simp [h, alookup_aerase_self, alookup_ainsert_self]

/-- `set` writes only the entry and fingerprint tables. -/
theorem set_preserves_processing (c : DocumentCache) (fs : FS) (now : Int)
    (path : String) (config : Option ExtractionConfig) (r : ExtractionResult) :
    (c.set fs now path config r).processing = c.processing ∧
    (c.set fs now path config r).events = c.events := ⟨rfl, rfl⟩

/-- `get` never touches the processing or event tables. -/
theorem get_preserves_processing (c : DocumentCache) (fs : FS) (path : String)
    (config : Option ExtractionConfig) :
    ((c.get fs path config).2).processing = c.processing ∧
    ((c.get fs path config).2).events = c.events := by
  unfold DocumentCache.get
  cases h : alookup c.cache (getCacheKey fs path config) with
  | none => simp [h]
  | some r =>
    by_cases hv : c.isCacheValid fs (getCacheKey fs path config) path = true <;>
      simp [h, hv]

/-! ## Slot-array lemmas -/

theorem getElem?_set_self' {α : Type} (l : List α) (i : Nat) (a : α)
    (h : i < l.length) : (l.set i a)[i]? = some a := by
  induction l generalizing i with
  | nil => simp at h
  | cons hd tl ih =>
    cases i with
    | zero => simp
    | succ j => simpa using ih j (by simpa using h)

theorem getElem?_set_ne' {α : Type} (l : List α) (i j : Nat) (a : α)
    (h : j ≠ i) : (l.set i a)[j]? = l[j]? := by
  induction l generalizing i j with
  | nil => simp
  | cons hd tl ih =>
    cases i with
    | zero =>
      cases j with
      | zero => exact absurd rfl h
      | succ j' => simp
    | succ i' =>
      cases j with
      | zero => simp
      | succ j' => simpa using ih i' j' (by omega)

/-- The `as_completed` slot-filling loop, when every completing unit delivered
`ok (f i)`, fills each in-range slot it visits with `some (f i)` and leaves
the rest alone. -/
theorem runCompletion_filled (outcomes : Nat → Option (Except KError ExtractionResult))
    (f : Nat → ExtractionResult) :
    ∀ (order : List Nat) (slots : List (Option ExtractionResult)),
      (∀ i ∈ order, outcomes i = some (.ok (f i))) →
      ∃ final, runCompletion outcomes order slots = some (.ok final) ∧
        final.length = slots.length ∧
        ∀ j, final[j]? =
          if j ∈ order ∧ j < slots.length then some (some (f j)) else slots[j]? := by
  intro order
  induction order with
  | nil =>
    intro slots _
    exact ⟨slots, rfl, rfl, fun j => by simp⟩
  | cons i rest ih =>
    intro slots hok
    have hi : outcomes i = some (.ok (f i)) := hok i (List.mem_cons_self i rest)
    obtain ⟨final, hrun, hlen, hchar⟩ :=
      ih (slots.set i (some (f i))) (fun j hj => hok j (List.mem_cons_of_mem i hj))
    refine ⟨final, ?_, by simpa using hlen, ?_⟩
    · simpa [runCompletion, hi] using hrun
    · intro j
      rw [hchar j]
      simp only [List.length_set]
      by_cases hlt : j < slots.length
      · by_cases hjr : j ∈ rest
        · simp [hjr, hlt]
        · by_cases hji : j = i
          · subst hji
            simp [hjr, hlt, getElem?_set_self' slots j (some (f j)) hlt]
          · simp [hjr, hji, hlt, getElem?_set_ne' slots i j (some (f i)) hji]
      · have hge := Nat.le_of_not_lt hlt
        have h₁ : slots[j]? = none := List.getElem?_eq_none hge
        have h₂ : (slots.set i (some (f i)))[j]? = none :=
          List.getElem?_eq_none (by simpa using hge)
        simp [hlt, h₁, h₂]

/-- With a completion order that is a permutation of the input indices and
every unit delivering `ok (f i)`, the slot loop produces exactly the
input-ordered outcome list. -/
theorem runCompletion_perm_eq (outcomes : Nat → Option (Except KError ExtractionResult))
    (f : Nat → ExtractionResult) (n : Nat) (order : List Nat)
    (hperm : order.Perm (List.range n))
    (hok : ∀ i, i < n → outcomes i = some (.ok (f i))) :
    runCompletion outcomes order (List.replicate n none) =
      some (.ok ((List.range n).map fun i => some (f i))) := by
  obtain ⟨final, hrun, hlen, hchar⟩ :=
    runCompletion_filled outcomes f order (List.replicate n none)
      (fun i hi => hok i (List.mem_range.mp (hperm.mem_iff.mp hi)))
  rw [hrun]
  have hfinal : final = (List.range n).map fun i => some (f i) := by
    apply List.ext_getElem?
    intro j
    rw [hchar j]
    simp only [List.length_replicate]
    by_cases hj : j < n
    · have hmem : j ∈ order := hperm.mem_iff.mpr (List.mem_range.mpr hj)
      simp [hmem, hj, List.getElem?_map, List.getElem?_range]
    · have hge := Nat.le_of_not_lt hj
      have h₁ : (List.replicate n (none : Option ExtractionResult))[j]? = none :=
        List.getElem?_eq_none (by simpa using hge)
      have h₂ : ((List.range n).map fun i => some (f i))[j]? = none :=
        List.getElem?_eq_none (by simpa using hge)
      simp [hj, h₁, h₂]
  rw [hfinal]

/-! ## Claim C2 — cache-key collision correctness -/

/-- **C2, counterexample.** Two configurations that differ only in
`extract_entities` — a field outside the seven-field allow-list — produce
*different* extraction outputs through `extract_file_sync` (the entity
feature of `_validate_and_post_process_helper` rewrites `result.entities`),
yet `_get_cache_key` computes the *same* key for them, so logically distinct
requests do collide, contrary to the claim. -/
theorem cache_key_collides_for_output_distinct_configs :
    getCacheKey sampleFS "doc.txt" (some noCacheConfig) =
      getCacheKey sampleFS "doc.txt" (some entitiesConfig) ∧
    extract_file_sync sampleEnv noCacheConfig "doc.txt" DocumentCache.empty ≠
      extract_file_sync sampleEnv entitiesConfig "doc.txt" DocumentCache.empty := by
  constructor
  · rfl
  · decide

/-- **C2, amended.** The cache key is determined by exactly the resolved
path, the file's size/mtime fingerprint, and the seven allow-listed config
fields: for a fixed file, two configurations get equal keys precisely when
they agree on the seven fields (so fields outside the allow-list — even
output-affecting ones such as `extract_entities` — never separate keys), and
for a fixed config the key separates exactly the stat fingerprints. -/
theorem cache_key_determined_by_allowlist :
    (∀ (fs : FS) (path : String) (c₁ c₂ : ExtractionConfig),
      getCacheKey fs path (some c₁) = getCacheKey fs path (some c₂) ↔
        configKeyFields c₁ = configKeyFields c₂) ∧
    (∀ (fs fs' : FS) (path : String) (config : Option ExtractionConfig),
      getCacheKey fs path config = getCacheKey fs' path config ↔
        fileInfoOf path (fs path) = fileInfoOf path (fs' path)) := by
  constructor
  · intro fs path c₁ c₂
    simp [getCacheKey, CacheKey.mk.injEq]
  · intro fs fs' path config
    simp [getCacheKey, CacheKey.mk.injEq]

/-! ## Claim C3 — staleness detection -/

/-- **C3, counterexample.** `set` stores `doc.txt` (size 5, mtime 100); the
file is then mutated to size 6.  The next `get` *misses* — but not by
fingerprint validation: the mutated stat yields a different cache key, so the
stored entry is never even found, and both it and its fingerprint metadata
remain in the cache instead of being evicted as the claim states. -/
theorem stale_get_misses_but_does_not_evict :
    ((docCachedState.get mutatedFS "doc.txt" (some baseConfig)).1 = none) ∧
    alookup ((docCachedState.get mutatedFS "doc.txt" (some baseConfig)).2).cache
        (getCacheKey sampleFS "doc.txt" (some baseConfig)) =
      some (plainResult "content of doc.txt" "text/plain") ∧
    alookup ((docCachedState.get mutatedFS "doc.txt" (some baseConfig)).2).fileMetadata
        (getCacheKey sampleFS "doc.txt" (some baseConfig)) =
      some { size := 5, mtime := 100, cached_at := sampleEnv.now } := by
  decide

/-- **C3, amended.** After `set(path, config, result)` on a file with stat
`s₀`, mutating the file's size or mtime (stat `s₁ ≠ s₀`) makes the next
`get(path, config)` return `none` — a miss — because the key embeds the
current size/mtime and therefore changes; the previously stored entry is
*retained* under the old key (no eviction happens on this miss). -/
theorem get_after_mutation_misses_and_retains
    (fs fs' : FS) (path : String) (config : Option ExtractionConfig)
    (result : ExtractionResult) (now : Int) (s₀ s₁ : Stat)
    (h₀ : fs path = some s₀) (h₁ : fs' path = some s₁) (hne : s₀ ≠ s₁) :
    ((DocumentCache.empty.set fs now path config result).get fs' path config).1
        = none ∧
    alookup (((DocumentCache.empty.set fs now path config result).get
        fs' path config).2).cache (getCacheKey fs path config) = some result := by
  have hkey : getCacheKey fs' path config ≠ getCacheKey fs path config := by
    intro h
    apply hne
    have hinfo : fileInfoOf path (fs' path) = fileInfoOf path (fs path) := by
      simpa [getCacheKey, CacheKey.mk.injEq] using h
    rw [h₀, h₁] at hinfo
    simp [fileInfoOf, FileInfo.mk.injEq] at hinfo
    cases s₀; cases s₁
    simp_all
  have hcache : (DocumentCache.empty.set fs now path config result).cache =
      [(getCacheKey fs path config, result)] := by
    simp [DocumentCache.set, DocumentCache.empty, ainsert]
  have hlook : alookup (DocumentCache.empty.set fs now path config result).cache
      (getCacheKey fs' path config) = none := by
    rw [hcache]
    simp [alookup, hkey]
  have hget : (DocumentCache.empty.set fs now path config result).get fs' path config
      = (none, DocumentCache.empty.set fs now path config result) := by
    simp only [DocumentCache.get]
    rw [hlook]
  refine ⟨by rw [hget], ?_⟩
  rw [hget, hcache]
  simp [alookup]

/-- **C3, amended — witness.** The amended statement on `doc.txt`, stored at
size 5 and re-read after mutation to size 6. -/
theorem get_after_mutation_misses_and_retains_witness :
    ((DocumentCache.empty.set sampleFS 1700000000 "doc.txt" (some baseConfig)
        (plainResult "content of doc.txt" "text/plain")).get mutatedFS "doc.txt"
        (some baseConfig)).1 = none ∧
    alookup (((DocumentCache.empty.set sampleFS 1700000000 "doc.txt"
        (some baseConfig) (plainResult "content of doc.txt" "text/plain")).get
        mutatedFS "doc.txt" (some baseConfig)).2).cache
        (getCacheKey sampleFS "doc.txt" (some baseConfig)) =
      some (plainResult "content of doc.txt" "text/plain") :=
  get_after_mutation_misses_and_retains sampleFS mutatedFS "doc.txt"
    (some baseConfig) (plainResult "content of doc.txt" "text/plain")
    1700000000 ⟨5, 100⟩ ⟨6, 100⟩ (by decide) (by decide) (by decide)

/-! ## Claim C4 — `clear()` and in-flight gates -/

/-- **C4, counterexample.** A gate is registered for `doc.txt`, then
`clear()` runs: `is_processing` still returns `true`, because `clear` empties
only the entry and fingerprint tables and leaves the `_processing` gate table
untouched — contrary to the claim that no in-flight gate survives `clear`. -/
theorem clear_leaves_processing_gate :
    clearedWithGate.isProcessing sampleFS "doc.txt" (some baseConfig) = true ∧
    clearedWithGate.cache = [] ∧ clearedWithGate.fileMetadata = [] := by
  decide

/-- **C4, amended.** After `clear()` the entry and fingerprint tables are
empty — so `get` returns `None` for every path and config until a new `set` —
but the in-flight gate table is preserved verbatim: `is_processing` answers
exactly as it did before the `clear`. -/
theorem clear_empties_entries_and_preserves_gates
    (c : DocumentCache) (fs : FS) (path : String)
    (config : Option ExtractionConfig) :
    ((c.clear).get fs path config).1 = none ∧
    (c.clear).cache = [] ∧ (c.clear).fileMetadata = [] ∧
    (c.clear).processing = c.processing ∧
    (c.clear).isProcessing fs path config = c.isProcessing fs path config := by
  refine ⟨?_, rfl, rfl, rfl, rfl⟩
  simp [DocumentCache.clear, DocumentCache.get, alookup]

/-! ## Claim C7 — batch degeneration and concurrency bound -/

/-- **C7, counterexample.** The async batch entry points do *not* degenerate
for batches of size 1: `batch_extract_file` and `batch_extract_bytes` skip
the semaphore only for empty input, and for a single input (here with
`cpu_count = 4`) they still create an `anyio.Semaphore(min(1, 2·4)) =
Semaphore(1)`, contrary to the claim that no pool or semaphore is created for
batches of size at most 1. -/
theorem async_singleton_batch_creates_semaphore :
    (1 : Nat) ≤ 1 ∧
    batch_extract_file_semaphore 4 1 = some 1 ∧
    batch_extract_bytes_semaphore 4 1 = some 1 := by
  decide

/-- **C7, amended.** Only the *sync* batch entry points degenerate to
sequential extraction for batches of size at most 1 (no executor is
created); the async ones avoid the semaphore only for empty batches,
creating a `Semaphore(min(n, 2·cpu))` even for `n = 1`.  In all four entry
points the concurrency cap never exceeds `min(n, 2 · cpu_count)` — the sync
thread pools use the tighter `min(n, cpu_count)`. -/
theorem batch_concurrency_caps (cpu n : Nat) :
    (n ≤ 1 → batch_extract_file_sync_workers cpu n = none ∧
      batch_extract_bytes_sync_workers cpu n = none) ∧
    (batch_extract_file_semaphore cpu n = none ↔ n = 0) ∧
    (batch_extract_bytes_semaphore cpu n = none ↔ n = 0) ∧
    (∀ k, batch_extract_file_semaphore cpu n = some k → k ≤ min n (2 * cpu)) ∧
    (∀ k, batch_extract_bytes_semaphore cpu n = some k → k ≤ min n (2 * cpu)) ∧
    (∀ k, batch_extract_file_sync_workers cpu n = some k → k ≤ min n (2 * cpu)) ∧
    (∀ k, batch_extract_bytes_sync_workers cpu n = some k → k ≤ min n (2 * cpu)) := by
  refine ⟨?_, ?_, ?_, ?_, ?_, ?_, ?_⟩
  · intro h1
    constructor <;>
      simp [batch_extract_file_sync_workers, batch_extract_bytes_sync_workers, h1]
  · unfold batch_extract_file_semaphore
    split_ifs with h <;> simp [h]
  · unfold batch_extract_bytes_semaphore
    split_ifs with h <;> simp [h]
  all_goals
    intro k hk
    simp only [batch_extract_file_semaphore, batch_extract_bytes_semaphore,
      batch_extract_file_sync_workers, batch_extract_bytes_sync_workers] at hk
    split_ifs at hk
    simp at hk
    omega

/-- **C7, amended — witness.** The amended statement at `cpu = 4`, `n = 1`. -/
theorem batch_concurrency_caps_witness :
    ((1 : Nat) ≤ 1 → batch_extract_file_sync_workers 4 1 = none ∧
      batch_extract_bytes_sync_workers 4 1 = none) ∧
    (batch_extract_file_semaphore 4 1 = none ↔ (1 : Nat) = 0) ∧
    (batch_extract_bytes_semaphore 4 1 = none ↔ (1 : Nat) = 0) ∧
    (∀ k, batch_extract_file_semaphore 4 1 = some k → k ≤ min 1 (2 * 4)) ∧
    (∀ k, batch_extract_bytes_semaphore 4 1 = some k → k ≤ min 1 (2 * 4)) ∧
    (∀ k, batch_extract_file_sync_workers 4 1 = some k → k ≤ min 1 (2 * 4)) ∧
    (∀ k, batch_extract_bytes_sync_workers 4 1 = some k → k ≤ min 1 (2 * 4)) :=
  batch_concurrency_caps 4 1

/-! ## Claim C8 — worker sizing (spec-modelled: `ProcessPoolManager` is not
under `src/`; the model follows spec §4.3 and its test suite's expected
values, with `memory_limit_gb` converted to bytes as `int(gb * 1024³)`:
1.0 GB = 1073741824, 10.0 GB = 10737418240, 0.001 GB = 1073741). -/

/-- **C8.** `get_optimal_workers` is a total (hence non-raising,
deterministic) function of the configured limits and the per-task estimate,
equal to `max(1, min(max_processes, floor(memory_limit_bytes /
(task_memory_mb · 1MB))))` (with the spec's inner clamp), is always at least
1 and at most `max(1, max_processes)`; it returns 2, 2 and 1 on the three
configurations of the claim. -/
theorem get_optimal_workers_spec :
    (ProcessPoolManager.get_optimal_workers ⟨8, 1073741824⟩ 500 = 2) ∧
    (ProcessPoolManager.get_optimal_workers ⟨2, 10737418240⟩ 100 = 2) ∧
    (ProcessPoolManager.get_optimal_workers ⟨1, 1073741⟩ 1000 = 1) ∧
    (∀ (m : ProcessPoolManager) (t : Nat),
      1 ≤ m.get_optimal_workers t ∧
      m.get_optimal_workers t ≤ max 1 m.max_processes ∧
      m.get_optimal_workers t =
        max 1 (min m.max_processes
          (max 1 (m.memory_limit_bytes / (t * 1024 * 1024))))) := by
  refine ⟨by decide, by decide, by decide, ?_⟩
  intro m t
  refine ⟨?_, ?_, rfl⟩ <;>
    simp only [ProcessPoolManager.get_optimal_workers] <;>
    generalize m.memory_limit_bytes / (t * 1024 * 1024) = b <;> omega

/-! ## Claim C10 — no cache interaction when `use_cache` is off -/

/-- **C10.** With `config.use_cache = False`, `extract_file` and
`extract_file_sync` make no document-cache calls at all — the call log is
empty, so no `get`, `set`, `is_processing`, `mark_processing` or
`mark_complete` runs — and the cache state (entry table, fingerprint
metadata, processing gates, events) is returned unchanged; the outcome is
exactly the uncached extraction body's. -/
theorem no_cache_interaction_when_disabled
    (env : Env) (config : ExtractionConfig) (path : String) (c : DocumentCache)
    (h : config.use_cache = false) :
    extract_file_sync env config path c =
      some (extractFileBody env config path, c, ([] : List String)) ∧
    extract_file env config path c =
      some (extractFileBody env config path, c, ([] : List String)) := by
  have hblock : tryFinallyBlock env config path c =
      (extractFileBody env config path, c, ([] : List String)) := by
    unfold tryFinallyBlock
    cases extractFileBody env config path <;> simp [h]
  constructor <;> simp [extract_file_sync, extract_file, h, hblock]

/-- **C10 — witness.** The statement at a concrete uncached configuration. -/
theorem no_cache_interaction_when_disabled_witness :
    extract_file_sync sampleEnv noCacheConfig "doc.txt" DocumentCache.empty =
      some (extractFileBody sampleEnv noCacheConfig "doc.txt",
        DocumentCache.empty, ([] : List String)) ∧
    extract_file sampleEnv noCacheConfig "doc.txt" DocumentCache.empty =
      some (extractFileBody sampleEnv noCacheConfig "doc.txt",
        DocumentCache.empty, ([] : List String)) :=
  no_cache_interaction_when_disabled sampleEnv noCacheConfig "doc.txt"
    DocumentCache.empty rfl

/-! ## Claim C9 — scoped reentrant lock acquisition -/

/-- **C9.** The scoped acquisitions `pypdfium_lock()` and
`pypdfium_file_lock(path)` release the underlying reentrant lock on every
exit path: whatever the protected body does — return a value or raise — the
body's outcome is propagated unchanged and the lock is restored to its
pre-acquisition state (freshly created per-file locks are left released in
the table).  The acquirability hypotheses include the reentrant case — a
thread `t` already holding the lock at positive depth re-acquires it without
blocking. -/
theorem scoped_locks_release_on_all_exit_paths {ε α : Type} (t : Nat)
    (body : Except ε α) (l : RLock) (locks : FileLocks) (path : String)
    (hl : l = RLock.new ∨ (l.owner = some t ∧ 1 ≤ l.count))
    (hfl : alookup locks path = none ∨ alookup locks path = some RLock.new ∨
      ∃ n, 1 ≤ n ∧ alookup locks path = some ⟨some t, n⟩) :
    pypdfium_lock l t body = some (body, l) ∧
    (alookup locks path = none →
      pypdfium_file_lock locks path t body =
        some (body, ainsert locks path RLock.new)) ∧
    (∀ l₀, alookup locks path = some l₀ →
      pypdfium_file_lock locks path t body = some (body, locks)) := by
  have hround : ∀ l' : RLock,
      l' = RLock.new ∨ (l'.owner = some t ∧ 1 ≤ l'.count) →
      ∃ held, l'.acquire t = some held ∧ held.release = l' := by
    intro l' hl'
    obtain ⟨o, cnt⟩ := l'
    rcases hl' with h | ⟨ho, hc⟩
    · cases h
      exact ⟨⟨some t, 1⟩, rfl, rfl⟩
    · simp only at ho
      subst ho
      refine ⟨⟨some t, cnt + 1⟩, by simp [RLock.acquire], ?_⟩
      simp only at hc
      simp [RLock.release]
      omega
  refine ⟨?_, ?_, ?_⟩
  · obtain ⟨held, hacq, hrel⟩ := hround l hl
    simp [pypdfium_lock, hacq, hrel]
  · intro hnone
    obtain ⟨held, hacq, hrel⟩ := hround RLock.new (Or.inl rfl)
    simp [pypdfium_file_lock, getFileLock, hnone, hacq, hrel,
      ainsert_ainsert_self]
  · intro l₀ hsome
    have hl₀ : l₀ = RLock.new ∨ (l₀.owner = some t ∧ 1 ≤ l₀.count) := by
      rcases hfl with h | h | ⟨n, hn, h⟩
      · rw [h] at hsome; cases hsome
      · rw [h] at hsome; exact Or.inl (Option.some.inj hsome).symm
      · rw [h] at hsome
        cases Option.some.inj hsome
        exact Or.inr ⟨rfl, hn⟩
    obtain ⟨held, hacq, hrel⟩ := hround l₀ hl₀
    simp [pypdfium_file_lock, getFileLock, hsome, hacq, hrel,
      ainsert_self_of_alookup locks path l₀ hsome]

/-- **C9 — witness.** A thread already holding the global lock at depth 2
re-enters it around a body that raises; the per-file table holds a released
lock for `a.pdf`. -/
theorem scoped_locks_release_witness :
    pypdfium_lock (⟨some 7, 2⟩ : RLock) 7 (Except.error "boom" : Except String Nat) =
      some (Except.error "boom", (⟨some 7, 2⟩ : RLock)) ∧
    (alookup [("a.pdf", RLock.new)] "a.pdf" = none →
      pypdfium_file_lock [("a.pdf", RLock.new)] "a.pdf" 7
          (Except.error "boom" : Except String Nat) =
        some (Except.error "boom", ainsert [("a.pdf", RLock.new)] "a.pdf" RLock.new)) ∧
    (∀ l₀, alookup [("a.pdf", RLock.new)] "a.pdf" = some l₀ →
      pypdfium_file_lock [("a.pdf", RLock.new)] "a.pdf" 7
          (Except.error "boom" : Except String Nat) =
        some (Except.error "boom", [("a.pdf", RLock.new)])) :=
  scoped_locks_release_on_all_exit_paths 7 (Except.error "boom") ⟨some 7, 2⟩
    [("a.pdf", RLock.new)] "a.pdf" (Or.inr ⟨rfl, by decide⟩)
    (Or.inr (Or.inl (by decide)))

/-! ## Claim C1 — the in-flight gate is released on every exit path -/

/-- The `try ... finally` block with caching on, entered while the key's gate
is `eid`: whatever the body does, the gate is popped and its event set. -/
theorem tryFinallyBlock_releases (env : Env) (config : ExtractionConfig)
    (path : String) (c : DocumentCache) (eid : Nat)
    (huse : config.use_cache = true)
    (h : alookup c.processing (getCacheKey env.fs path (some config)) = some eid) :
    (tryFinallyBlock env config path c).1 = extractFileBody env config path ∧
    "mark_complete" ∈ (tryFinallyBlock env config path c).2.2 ∧
    alookup ((tryFinallyBlock env config path c).2.1).processing
        (getCacheKey env.fs path (some config)) = none ∧
    ((tryFinallyBlock env config path c).2.1).eventIsSet eid = true := by
  unfold tryFinallyBlock
  cases hbody : extractFileBody env config path with
  | ok r =>
    have hset : alookup ((c.set env.fs env.now path (some config) r)).processing
        (getCacheKey env.fs path (some config)) = some eid := by
      rw [(set_preserves_processing c env.fs env.now path (some config) r).1]
      exact h
    obtain ⟨h₁, h₂⟩ := markComplete_releases
      (c.set env.fs env.now path (some config) r) env.fs path (some config) eid hset
    simp [huse, h₁, h₂]
  | error e =>
    obtain ⟨h₁, h₂⟩ := markComplete_releases c env.fs path (some config) eid h
    simp [huse, h₁, h₂]

/-- **C1.** A call to `extract_file_sync` or `extract_file` with
`config.use_cache` on that becomes the in-flight holder (cache miss, no other
caller in flight — so its `mark_processing` registers the gate) releases and
removes the gate on every exit path: whether the extraction body returns a
result or raises, the returned outcome is the body's outcome, the call log
shows `mark_complete` ran, the key is gone from the processing table, and the
gate's event has been set — no waiter can be left on an unsignalled gate. -/
theorem extract_file_releases_gate_on_all_exits
    (env : Env) (config : ExtractionConfig) (path : String) (c : DocumentCache)
    (huse : config.use_cache = true)
    (hmiss : (c.get env.fs path (some config)).1 = none)
    (hnf : ((c.get env.fs path (some config)).2).isProcessing env.fs path
      (some config) = false) :
    (∃ out c' log, extract_file_sync env config path c = some (out, c', log) ∧
      out = extractFileBody env config path ∧
      "mark_complete" ∈ log ∧
      alookup c'.processing (getCacheKey env.fs path (some config)) = none ∧
      c'.eventIsSet (((c.get env.fs path (some config)).2).markProcessing
        env.fs path (some config)).1 = true) ∧
    (∃ out c' log, extract_file env config path c = some (out, c', log) ∧
      out = extractFileBody env config path ∧
      "mark_complete" ∈ log ∧
      alookup c'.processing (getCacheKey env.fs path (some config)) = none ∧
      c'.eventIsSet (((c.get env.fs path (some config)).2).markProcessing
        env.fs path (some config)).1 = true) := by
  have hc : c.get env.fs path (some config) =
      (none, (c.get env.fs path (some config)).2) := by
    cases hg : c.get env.fs path (some config) with
    | mk fst snd => rw [hg] at hmiss; simp only at hmiss; rw [hmiss]
  have hrel := tryFinallyBlock_releases env config path
    ((((c.get env.fs path (some config)).2).markProcessing env.fs path (some config)).2)
    ((((c.get env.fs path (some config)).2).markProcessing env.fs path (some config)).1)
    huse
    (markProcessing_lookup ((c.get env.fs path (some config)).2) env.fs path (some config))
  have hsync : extract_file_sync env config path c = some
      ((tryFinallyBlock env config path
          (((c.get env.fs path (some config)).2).markProcessing env.fs path (some config)).2).1,
        (tryFinallyBlock env config path
          (((c.get env.fs path (some config)).2).markProcessing env.fs path (some config)).2).2.1,
        ["get", "is_processing", "mark_processing"] ++
          (tryFinallyBlock env config path
            (((c.get env.fs path (some config)).2).markProcessing env.fs path
              (some config)).2).2.2) := by
    simp only [extract_file_sync, huse, if_true]
    rw [hc]
    simp [hnf]
  have hasync : extract_file env config path c = some
      ((tryFinallyBlock env config path
          (((c.get env.fs path (some config)).2).markProcessing env.fs path (some config)).2).1,
        (tryFinallyBlock env config path
          (((c.get env.fs path (some config)).2).markProcessing env.fs path (some config)).2).2.1,
        (["get", "is_processing"] ++ ["mark_processing"]) ++
          (tryFinallyBlock env config path
            (((c.get env.fs path (some config)).2).markProcessing env.fs path
              (some config)).2).2.2) := by
    simp only [extract_file, huse, if_true, handleCacheAsync]
    rw [hc]
    simp [hnf]
  exact ⟨⟨_, _, _, hsync, hrel.1, List.mem_append_right _ hrel.2.1,
      hrel.2.2.1, hrel.2.2.2⟩,
    ⟨_, _, _, hasync, hrel.1, List.mem_append_right _ hrel.2.1,
      hrel.2.2.1, hrel.2.2.2⟩⟩

/-- **C1 — witness.** The holder path on `ok1.txt` with caching on, from an
empty cache. -/
theorem extract_file_releases_gate_witness :
    (∃ out c' log, extract_file_sync sampleEnv baseConfig "ok1.txt"
        DocumentCache.empty = some (out, c', log) ∧
      out = extractFileBody sampleEnv baseConfig "ok1.txt" ∧
      "mark_complete" ∈ log ∧
      alookup c'.processing (getCacheKey sampleEnv.fs "ok1.txt" (some baseConfig))
        = none ∧
      c'.eventIsSet (((DocumentCache.empty.get sampleEnv.fs "ok1.txt"
        (some baseConfig)).2).markProcessing sampleEnv.fs "ok1.txt"
          (some baseConfig)).1 = true) ∧
    (∃ out c' log, extract_file sampleEnv baseConfig "ok1.txt"
        DocumentCache.empty = some (out, c', log) ∧
      out = extractFileBody sampleEnv baseConfig "ok1.txt" ∧
      "mark_complete" ∈ log ∧
      alookup c'.processing (getCacheKey sampleEnv.fs "ok1.txt" (some baseConfig))
        = none ∧
      c'.eventIsSet (((DocumentCache.empty.get sampleEnv.fs "ok1.txt"
        (some baseConfig)).2).markProcessing sampleEnv.fs "ok1.txt"
          (some baseConfig)).1 = true) :=
  extract_file_releases_gate_on_all_exits sampleEnv baseConfig "ok1.txt"
    DocumentCache.empty (by decide) (by decide) (by decide)

/-! ## Claim C5 — per-item failure isolation in batch extraction -/

/-- **C5.** `batch_extract_file` on
`["ok1.txt", "missing.pdf", "ok2.txt"]` — whatever order the three units of
work complete in — returns one slot per input without raising: slots 0 and 2
hold the successful extraction results, and slot 1 holds the structured
Validation-error result for the missing file, whose metadata records the
error kind and message (`"ValidationError: The file does not exist"`) and the
error context (operation, file block, error block, index). -/
theorem batch_isolates_missing_file (order : List Nat)
    (hperm : order.Perm (List.range 3)) :
    batch_extract_file sampleEnv baseConfig DocumentCache.empty
        ["ok1.txt", "missing.pdf", "ok2.txt"] order =
      some (.ok [some (plainResult "content of ok1.txt" "text/plain"),
                 some c5ErrorSlot,
                 some (plainResult "content of ok2.txt" "text/plain")]) ∧
    c5ErrorSlot.metadata_error = some "ValidationError: The file does not exist" ∧
    c5ErrorSlot.metadata_error_context =
      some { timestamp := sampleEnv.now
             operation := "batch_extract_file"
             file := some { path := "missing.pdf", name := "missing.pdf",
                            file_exists := false, size := none }
             error := some ⟨"ValidationError", "The file does not exist"⟩
             index := some 1
             mime_type := some none
             content_size := some 0 } := by
  refine ⟨?_, by decide, by decide⟩
  have hrun := runCompletion_perm_eq
    (batchFileItem sampleEnv baseConfig DocumentCache.empty
      ["ok1.txt", "missing.pdf", "ok2.txt"])
    c5Expected 3 order hperm (by decide)
  have hb : batch_extract_file sampleEnv baseConfig DocumentCache.empty
      ["ok1.txt", "missing.pdf", "ok2.txt"] order =
    runCompletion (batchFileItem sampleEnv baseConfig DocumentCache.empty
      ["ok1.txt", "missing.pdf", "ok2.txt"]) order
      (List.replicate 3 none) := by
    simp [batch_extract_file]
  rw [hb, hrun]
  decide

/-- **C5 — witness.** A completion order in which the failing middle unit
finishes first. -/
theorem batch_isolates_missing_file_witness :
    batch_extract_file sampleEnv baseConfig DocumentCache.empty
        ["ok1.txt", "missing.pdf", "ok2.txt"] [1, 2, 0] =
      some (.ok [some (plainResult "content of ok1.txt" "text/plain"),
                 some c5ErrorSlot,
                 some (plainResult "content of ok2.txt" "text/plain")]) ∧
    c5ErrorSlot.metadata_error = some "ValidationError: The file does not exist" ∧
    c5ErrorSlot.metadata_error_context =
      some { timestamp := sampleEnv.now
             operation := "batch_extract_file"
             file := some { path := "missing.pdf", name := "missing.pdf",
                            file_exists := false, size := none }
             error := some ⟨"ValidationError", "The file does not exist"⟩
             index := some 1
             mime_type := some none
             content_size := some 0 } :=
  batch_isolates_missing_file [1, 2, 0] (by decide)

/-! ## Claim C6 — batch outputs preserve input order -/

/-- **C6.** All four batch entry points return one slot per input with the
outcome of input `i` at index `i`, for *every* completion order of the
per-item units of work (any permutation of the indices): the async pair for
all input lengths, the sync pair through its thread-pool path for lengths at
least 2 and through its sequential path for lengths 0 and 1. -/
theorem batch_outputs_preserve_input_order
    (env : Env) (config : ExtractionConfig) (c : DocumentCache) :
    (∀ (paths : List String) (order : List Nat) (f : Nat → ExtractionResult),
      order.Perm (List.range paths.length) →
      (∀ i, i < paths.length →
        batchFileItem env config c paths i = some (.ok (f i))) →
      batch_extract_file env config c paths order =
        some (.ok ((List.range paths.length).map fun i => some (f i)))) ∧
    (∀ (contents : List (String × String)) (order : List Nat)
        (f : Nat → ExtractionResult),
      order.Perm (List.range contents.length) →
      (∀ i, i < contents.length →
        batchBytesItem env config contents i = some (.ok (f i))) →
      batch_extract_bytes env config contents order =
        some (.ok ((List.range contents.length).map fun i => some (f i)))) ∧
    (∀ (paths : List String) (order : List Nat) (f : Nat → ExtractionResult),
      2 ≤ paths.length →
      order.Perm (List.range paths.length) →
      (∀ i, i < paths.length →
        batchFileSyncItem env config c paths i = some (.ok (f i))) →
      batch_extract_file_sync env config c paths order =
        some (.ok ((List.range paths.length).map fun i => some (f i)))) ∧
    (∀ (contents : List (String × String)) (order : List Nat)
        (f : Nat → ExtractionResult),
      2 ≤ contents.length →
      order.Perm (List.range contents.length) →
      (∀ i, i < contents.length →
        batchBytesSyncItem env config contents i = some (.ok (f i))) →
      batch_extract_bytes_sync env config contents order =
        some (.ok ((List.range contents.length).map fun i => some (f i)))) ∧
    (∀ order : List Nat,
      batch_extract_file_sync env config c [] order = some (.ok []) ∧
      batch_extract_bytes_sync env config [] order = some (.ok [])) ∧
    (∀ (p : String) (order : List Nat) (r : ExtractionResult)
        (c' : DocumentCache) (log : List String),
      extract_file_sync env config p c = some (.ok r, c', log) →
      batch_extract_file_sync env config c [p] order = some (.ok [some r])) ∧
    (∀ (content mime : String) (order : List Nat) (r : ExtractionResult),
      extract_bytes env config content mime = .ok r →
      batch_extract_bytes_sync env config [(content, mime)] order =
        some (.ok [some r])) := by
  refine ⟨?_, ?_, ?_, ?_, ?_, ?_, ?_⟩
  · intro paths order f hperm hok
    by_cases h0 : paths.length = 0
    · have horder : order = [] := (h0 ▸ hperm).eq_nil
      simp [batch_extract_file, h0, horder]
    · simp only [batch_extract_file, h0, if_false]
      exact runCompletion_perm_eq _ f _ order hperm hok
  · intro contents order f hperm hok
    by_cases h0 : contents.length = 0
    · have horder : order = [] := (h0 ▸ hperm).eq_nil
      simp [batch_extract_bytes, h0, horder]
    · simp only [batch_extract_bytes, h0, if_false]
      exact runCompletion_perm_eq _ f _ order hperm hok
  · intro paths order f h2 hperm hok
    have h1 : ¬ paths.length ≤ 1 := by omega
    simp only [batch_extract_file_sync, h1, if_false]
    exact runCompletion_perm_eq _ f _ order hperm hok
  · intro contents order f h2 hperm hok
    have h1 : ¬ contents.length ≤ 1 := by omega
    simp only [batch_extract_bytes_sync, h1, if_false]
    exact runCompletion_perm_eq _ f _ order hperm hok
  · intro order
    constructor <;> simp [batch_extract_file_sync, batch_extract_bytes_sync]
  · intro p order r c' log h
    simp [batch_extract_file_sync, h]
  · intro content mime order r h
    simp [batch_extract_bytes_sync, h]

/-- **C6 — witness.** A two-file async batch whose units complete in reversed
order still fills the slots in input order. -/
theorem batch_outputs_preserve_input_order_witness :
    batch_extract_file sampleEnv baseConfig DocumentCache.empty
        ["ok1.txt", "ok2.txt"] [1, 0] =
      some (.ok ((List.range 2).map fun i =>
        some (if i = 0 then plainResult "content of ok1.txt" "text/plain"
              else plainResult "content of ok2.txt" "text/plain"))) :=
  (batch_outputs_preserve_input_order sampleEnv baseConfig DocumentCache.empty).1
    ["ok1.txt", "ok2.txt"] [1, 0]
    (fun i => if i = 0 then plainResult "content of ok1.txt" "text/plain"
              else plainResult "content of ok2.txt" "text/plain")
    (by decide) (by decide)

end Kreuzberg
